import Mathlib

/-!
Shallow embedding of joblib's `_memmapping_reducer.py` (memory-mapping
pickling reducers for numpy arrays) and proofs about its specification.

The embedding translates the source functions into pure Lean functions.
Filesystem and resource-tracker effects are made explicit by threading a
state record through the functions that touch them.  Python `None` becomes
`Option`, Python exceptions that the source catches locally are modelled by
the corresponding fallback value, and raising `KeyError` out of a lookup is
modelled as returning `none`.
-/

namespace Joblib

/-- Memory-map open mode as used by `numpy.memmap` (`r`, `r+`, `c`, `w+`). -/
inductive Mode where
  | r : Mode
  | rplus : Mode
  | c : Mode
  | wplus : Mode
deriving DecidableEq, Repr

/-- Array memory order tag (`C` or `F`). -/
inductive ArrOrder where
  | C : ArrOrder
  | F : ArrOrder
deriving DecidableEq, Repr

/-- The slice of a numpy dtype that the reducers inspect: `hasobject`
(whether elements are Python objects) and `itemsize`.  The `name` field
stands for the rest of the dtype identity. -/
structure Dtype where
  name : String
  itemsize : Nat
  hasobject : Bool
deriving DecidableEq, Repr

/-- A CPython object identity: `pyid` models `id(obj)` and `tok`
distinguishes distinct objects that may reuse the same `id` after
garbage collection. -/
structure Obj where
  pyid : Nat
  tok : Nat
deriving DecidableEq, Repr

/-- The per-array attributes read by the reducers.  `byteStart`/`byteEnd`
are `np.byte_bounds(a)`; `memOffset` is the `offset` attribute of an
`np.memmap`; `isMemmap` models `isinstance(a, np.memmap)`; `filename` and
`mode` are the memmap attributes of the same name; `obj` is the object's
CPython identity. -/
structure ArrInfo where
  shape : List Nat
  strides : List Int
  dtype : Dtype
  cContig : Bool
  fContig : Bool
  byteStart : Nat
  byteEnd : Nat
  nbytes : Nat
  isMemmap : Bool
  filename : String
  mode : Mode
  memOffset : Nat
  obj : Obj
deriving DecidableEq, Repr

/-- An ndarray together with its `.base` ancestry.  `base = none` models
`a.base is None`; `some (Sum.inl ())` models a base that is a raw
`mmap.mmap` object; `some (Sum.inr b)` models an ndarray base. -/
inductive NDArray : Type where
  | mk : ArrInfo → Option (Unit ⊕ NDArray) → NDArray

/-- The attribute record of an array. -/
def NDArray.info : NDArray → ArrInfo
  | .mk i _ => i

/-- The `.base` attribute of an array. -/
def NDArray.base : NDArray → Option (Unit ⊕ NDArray)
  | .mk _ b => b

/-- `_get_backing_memmap(a)`: recursively look up the original memmap
instance at the bottom of the `base` ancestry, i.e. the first ancestor
whose own base is a raw OS `mmap` object. -/
def get_backing_memmap : NDArray → Option NDArray
  | .mk i b =>
    match b with
    | none => none
    | some (Sum.inl _) => some (.mk i b)
    | some (Sum.inr b) => get_backing_memmap b

/-- `has_shareable_memory(a)`. -/
def has_shareable_memory (a : NDArray) : Bool :=
  (get_backing_memmap a).isSome

/-- The argument tuple of `_strided_from_memmap` as emitted on the wire by
`_reduce_memmap_backed` (the "descriptor", spec section 4.3/6). -/
structure Descriptor where
  filename : String
  dtype : Dtype
  mode : Mode
  offset : Int
  order : ArrOrder
  shape : List Nat
  strides : Option (List Int)
  total_buffer_len : Option Nat
  unlink_on_gc_collect : Bool
deriving DecidableEq, Repr

/-- `_reduce_memmap_backed(a, m)`: build the descriptor for the memmap
backed array `a` whose backing memmap is `m`.  Follows the source line by
line: byte-bounds offset plus `m.offset`, order `F` iff the backing memmap
is Fortran contiguous, strides and total buffer length only for
non-contiguous views. -/
def reduce_memmap_backed (a m : NDArray) : Descriptor :=
  let a_start := a.info.byteStart
  let a_end := a.info.byteEnd
  let m_start := m.info.byteStart
  let offset : Int := (a_start : Int) - (m_start : Int) + (m.info.memOffset : Int)
  let order := if m.info.fContig then ArrOrder.F else ArrOrder.C
  let stridesTotal : Option (List Int) × Option Nat :=
    if a.info.fContig || a.info.cContig then
      (none, none)
    else
      (some a.info.strides, some ((a_end - a_start) / a.info.dtype.itemsize))
  { filename := m.info.filename
    dtype := a.info.dtype
    mode := m.info.mode
    offset := offset
    order := order
    shape := a.info.shape
    strides := stridesTotal.1
    total_buffer_len := stridesTotal.2
    unlink_on_gc_collect := false }

/-- Arguments of a `make_memmap` call performed while decoding a
descriptor.  `shapeSpec` is the `shape` argument: the declared shape for a
contiguous descriptor, or `[total_buffer_len]` for a strided one. -/
structure MemmapCall where
  filename : String
  dtype : Dtype
  shapeSpec : List Nat
  mode : Mode
  offset : Int
  order : ArrOrder
  unlink_on_gc_collect : Bool
deriving DecidableEq, Repr

/-- Result of `_strided_from_memmap`: either the memmap itself, or an
`as_strided` view extracted from the memmap of the enclosing buffer. -/
inductive Reconstructed where
  | direct : MemmapCall → Reconstructed
  | asStrided : MemmapCall → List Nat → List Int → Reconstructed
deriving DecidableEq, Repr

/-- The mode actually passed to `make_memmap` by the decoder. -/
def Reconstructed.mmapMode : Reconstructed → Mode
  | .direct m => m.mode
  | .asStrided m _ _ => m.mode

/-- `_strided_from_memmap(...)`: reconstruct an array view on a memory
mapped file.  Canonicalizes mode `w+` to `r+` first, then opens either a
direct memmap (no strides) or the total enclosing buffer plus an
`as_strided` view. -/
def strided_from_memmap (filename : String) (dtype : Dtype) (mode : Mode)
    (offset : Int) (order : ArrOrder) (shape : List Nat)
    (strides : Option (List Int)) (total_buffer_len : Option Nat)
    (unlink_on_gc_collect : Bool) : Reconstructed :=
  let mode := if mode = Mode.wplus then Mode.rplus else mode
  match strides with
  | none =>
      .direct
        { filename := filename, dtype := dtype, shapeSpec := shape,
          mode := mode, offset := offset, order := order,
          unlink_on_gc_collect := unlink_on_gc_collect }
  | some s =>
      .asStrided
        { filename := filename, dtype := dtype,
          shapeSpec := [total_buffer_len.getD 0],
          mode := mode, offset := offset, order := order,
          unlink_on_gc_collect := unlink_on_gc_collect }
        shape s

/-- Decode a full descriptor (apply `_strided_from_memmap` to the tuple
emitted by `_reduce_memmap_backed`). -/
def decodeDescriptor (d : Descriptor) : Reconstructed :=
  strided_from_memmap d.filename d.dtype d.mode d.offset d.order d.shape
    d.strides d.total_buffer_len d.unlink_on_gc_collect

/-- Result of a backward (worker to coordinator) reduction: either the
descriptor path `(_strided_from_memmap, args)` or the inline path
`(loads, (dumps(np.asarray(a)),))`, which ships a plain copy of the
array's data. -/
inductive BackwardResult where
  | descriptor : Descriptor → BackwardResult
  | inline : NDArray → BackwardResult

/-- Whether a backward reduction emitted a descriptor. -/
def BackwardResult.isDescriptor : BackwardResult → Bool
  | .descriptor _ => true
  | .inline _ => false

/-- `reduce_array_memmap_backward(a)`, with the process-global
`JOBLIB_MMAPS` set passed explicitly: reduce via the descriptor codec iff
`a` has a backing memmap that is an `np.memmap` instance whose filename is
not in `JOBLIB_MMAPS`; otherwise serialize inline. -/
def reduce_array_memmap_backward (joblib_mmaps : List String) (a : NDArray) :
    BackwardResult :=
  match get_backing_memmap a with
  | some m =>
      if m.info.isMemmap && !(joblib_mmaps.contains m.info.filename) then
        .descriptor (reduce_memmap_backed a m)
      else
        .inline a
  | none => .inline a

/-! ### Temporary folder resolution (`_get_temp_dir`) -/

/-- `SYSTEM_SHARED_MEM_FS`. -/
def SYSTEM_SHARED_MEM_FS : String := "/dev/shm"

/-- `SYSTEM_SHARED_MEM_FS_MIN_SIZE = int(2e9)`. -/
def SYSTEM_SHARED_MEM_FS_MIN_SIZE : Nat := 2000000000

/-- Character-list comparison underlying the string predicates below:
`charsBegins p s` holds when `p` is an initial segment of `s`. -/
def charsBegins : List Char → List Char → Bool
  | [], _ => true
  | _ :: _, [] => false
  | p :: ps, s :: ss => p = s && charsBegins ps ss

/-- Kernel-computable model of `s.startswith(p)`. -/
def strBegins (s p : String) : Bool := charsBegins p.data s.data

/-- Kernel-computable model of `s.endswith(p)`. -/
def strFinishes (s p : String) : Bool :=
  charsBegins p.data.reverse s.data.reverse

/-- Kernel-computable model of dropping the first character of `s`. -/
def strDropOne (s : String) : String := String.mk (s.data.drop 1)

/-- Model of `os.path.join a b` for the two-argument uses in the source:
an absolute second component replaces the first, otherwise the components
are joined with a single separator. -/
def pathJoin (a b : String) : String :=
  if strBegins b "/" then b
  else if strFinishes a "/" then a ++ b
  else a ++ "/" ++ b

/-- Model of `os.path.expanduser`: replace a leading `~` by the home
directory. -/
def expanduser (home p : String) : String :=
  if p = "~" then home
  else if strBegins p "~/" then home ++ strDropOne p
  else p

/-- Model of `os.path.abspath` (without `normpath` simplification): an
already absolute path is kept, a relative one is anchored at the current
working directory. -/
def abspath (cwd p : String) : String :=
  if strBegins p "/" then p else pathJoin cwd p

/-- The filesystem and environment state read (and possibly written) by
`_get_temp_dir`: the set of existing paths, whether `os.makedirs` under
`/dev/shm` would succeed, the `statvfs` block size and free-block count of
`/dev/shm`, the `JOBLIB_TEMP_FOLDER` environment variable,
`tempfile.gettempdir()`, the working directory and the home directory. -/
structure FS where
  dirs : List String
  shmWritable : Bool
  shmBsize : Nat
  shmBavail : Nat
  envJoblibTempFolder : Option String
  tempdir : String
  cwd : String
  home : String
deriving DecidableEq, Repr

/-- `_get_temp_dir(pool_folder_name, temp_folder)`: returns
`((pool_folder, use_shared_mem), fs)` where `fs` is the filesystem after
the call (the shared-memory branch creates the pool folder as a write
probe; a failing `os.makedirs` is the caught `OSError` that resets
`temp_folder` to `None`). -/
def get_temp_dir (fs : FS) (pool_folder_name : String)
    (temp_folder : Option String) : (String × Bool) × FS :=
  let tf : Option String :=
    match temp_folder with
    | some t => some t
    | none => fs.envJoblibTempFolder
  let step : Option String × Bool × FS :=
    match tf with
    | some t => (some t, false, fs)
    | none =>
      if fs.dirs.contains SYSTEM_SHARED_MEM_FS then
        let available_nbytes := fs.shmBsize * fs.shmBavail
        if available_nbytes > SYSTEM_SHARED_MEM_FS_MIN_SIZE then
          let pool_folder := pathJoin SYSTEM_SHARED_MEM_FS pool_folder_name
          if !(fs.dirs.contains pool_folder) then
            if fs.shmWritable then
              (some SYSTEM_SHARED_MEM_FS, true,
               { fs with dirs := pool_folder :: fs.dirs })
            else
              (none, false, fs)
          else
            (some SYSTEM_SHARED_MEM_FS, true, fs)
        else
          (none, false, fs)
      else
        (none, false, fs)
  let tfFinal : String :=
    match step.1 with
    | some t => t
    | none => fs.tempdir
  let tfAbs := abspath fs.cwd (expanduser fs.home tfFinal)
  ((pathJoin tfAbs pool_folder_name, step.2.1), step.2.2)

/-! ### `_WeakArrayKeyMap` -/

/-- Lookup in the association list that models the Python dict
`self._data` of `_WeakArrayKeyMap` (key: `id(obj)`, value: the weakref
target together with the stored value). -/
def lookupAssoc {α : Type} : List (Nat × Obj × α) → Nat → Option (Obj × α)
  | [], _ => none
  | (k, ov) :: rest, key => if k = key then some ov else lookupAssoc rest key

/-- Dict update for the same association list. -/
def insertAssoc {α : Type} : List (Nat × Obj × α) → Nat → Obj × α →
    List (Nat × Obj × α)
  | [], key, ov => [(key, ov)]
  | (k, ov0) :: rest, key, ov =>
    if k = key then (key, ov) :: rest else (k, ov0) :: insertAssoc rest key ov

/-- `_WeakArrayKeyMap`: a map keyed on object identity (`id(obj)`) whose
entries also remember which object the stored weak reference points to.
An entry whose target differs from the queried object models a stale
entry left by id reuse after garbage collection (for a live queried
object, `ref() is not obj` holds exactly when the stored target is a
different object). -/
structure WeakArrayKeyMap (α : Type) where
  data : List (Nat × Obj × α)
deriving DecidableEq, Repr

/-- `_WeakArrayKeyMap.get(obj)`: raising `KeyError` is modelled by
`none` — both for an absent key and for a stale weakref (`ref() is not
obj`). -/
def WeakArrayKeyMap.get {α : Type} (m : WeakArrayKeyMap α) (obj : Obj) :
    Option α :=
  match lookupAssoc m.data obj.pyid with
  | none => none
  | some (ref, val) => if ref = obj then some val else none

/-- `_WeakArrayKeyMap.set(obj, value)`: the internal `KeyError` raised on
an absent key or a stale weakref is caught, a fresh weakref to `obj` is
created, and `self._data[key] = ref, value` stores the entry in every
case. -/
def WeakArrayKeyMap.set {α : Type} (m : WeakArrayKeyMap α) (obj : Obj)
    (value : α) : WeakArrayKeyMap α :=
  let key := obj.pyid
  let ref : Obj :=
    match lookupAssoc m.data key with
    | some (ref0, _) => if ref0 = obj then ref0 else obj
    | none => obj
  { data := insertAssoc m.data key (ref, value) }

/-! ### `ArrayMemmapForwardReducer` -/

/-- The `prewarm` argument of the forward reducer, which is either the
string `"auto"` or a boolean. -/
inductive PrewarmArg where
  | auto : PrewarmArg
  | bool : Bool → PrewarmArg
deriving DecidableEq, Repr

/-- Python truthiness of the `_prewarm` attribute as tested by
`if self._prewarm:` (the non-empty string `"auto"` is truthy). -/
def PrewarmArg.truthy : PrewarmArg → Bool
  | .auto => true
  | .bool b => b

/-- The conditional assignment of `self._prewarm` inside `__init__`
(the `if prewarm == "auto": ... else: ...` statement alone). -/
def initPrewarmConditional (temp_folder : String) (prewarm : PrewarmArg) :
    PrewarmArg :=
  if prewarm = PrewarmArg.auto then
    PrewarmArg.bool (!(strBegins temp_folder SYSTEM_SHARED_MEM_FS))
  else
    prewarm

/-- The value of `self._prewarm` when `__init__` returns: the conditional
assignment is followed by the unconditional `self._prewarm = prewarm` on
the next line of the source, which overwrites it with the raw
parameter. -/
def initPrewarmField (temp_folder : String) (prewarm : PrewarmArg) :
    PrewarmArg :=
  let _v := initPrewarmConditional temp_folder prewarm
  prewarm

/-- The mutable attributes of an `ArrayMemmapForwardReducer` instance
that `__call__` reads or writes.  `temp_folder` stands for the value the
`_temp_folder_resolver` callable returns during the call. -/
structure RState where
  max_nbytes : Option Nat
  mmap_mode : Mode
  unlink_on_gc_collect : Bool
  prewarm : PrewarmArg
  memmaped_arrays : WeakArrayKeyMap String
  temporary_memmaped_filenames : List String
  temp_folder : String
deriving DecidableEq, Repr

/-- The world outside the reducer instance that `__call__` touches: the
existing directories and files, the multiset of `resource_tracker`
registrations of kind `"file"` (one list entry per `register` call), and
the log of filenames `dump` has been called on. -/
structure Env where
  existingDirs : List String
  existingFiles : List String
  tracker : List String
  dumpLog : List String
deriving DecidableEq, Repr

/-- Result of a forward (coordinator to worker) reduction: the descriptor
reuse path `(_strided_from_memmap, args)`, the memmap dump path
`(load_temporary_memmap, (filename, mmap_mode, unlink_on_gc_collect))`,
or the inline path `(loads, (dumps(a),))`. -/
inductive ForwardResult where
  | descriptor : Descriptor → ForwardResult
  | loadTemporaryMemmap : String → Mode → Bool → ForwardResult
  | inline : NDArray → ForwardResult

/-- Whether a forward reduction took the memmap dump path. -/
def ForwardResult.isMemmapDump : ForwardResult → Bool
  | .loadTemporaryMemmap _ _ _ => true
  | _ => false

/-- The size-threshold test of `__call__`:
`not a.dtype.hasobject and self._max_nbytes is not None and
a.nbytes > self._max_nbytes`. -/
def memmapThresholdCond (st : RState) (a : NDArray) : Bool :=
  !a.info.dtype.hasobject &&
    (match st.max_nbytes with
     | some t => decide (a.info.nbytes > t)
     | none => false)

/-- The body of `__call__` after the backing-memmap check failed, for an
array that is not (usably) memmap backed: either dump `a` to a memmap
file, dedup included, or fall through to inline pickling.
`fresh_basename` is the `"{pid}-{thread-id}-{uuid}.pkl"` name generated
when the dedup map misses. -/
def callPlainArray (st : RState) (env : Env) (a : NDArray)
    (fresh_basename : String) : ForwardResult × RState × Env :=
  if memmapThresholdCond st a then
    let dirs1 :=
      if env.existingDirs.contains st.temp_folder then env.existingDirs
      else st.temp_folder :: env.existingDirs
    let basenameAndMap : String × WeakArrayKeyMap String :=
      match st.memmaped_arrays.get a.info.obj with
      | some b => (b, st.memmaped_arrays)
      | none => (fresh_basename,
                 st.memmaped_arrays.set a.info.obj fresh_basename)
    let filename := pathJoin st.temp_folder basenameAndMap.1
    let is_new_memmap := !(st.temporary_memmaped_filenames.contains filename)
    let tmf :=
      if st.temporary_memmaped_filenames.contains filename then
        st.temporary_memmaped_filenames
      else filename :: st.temporary_memmaped_filenames
    let tracker1 :=
      if st.unlink_on_gc_collect then filename :: env.tracker
      else env.tracker
    let tracker2 :=
      if is_new_memmap then filename :: tracker1 else tracker1
    let filesAndDump : List String × List String :=
      if !(env.existingFiles.contains filename) then
        (filename :: env.existingFiles, filename :: env.dumpLog)
      else
        (env.existingFiles, env.dumpLog)
    (.loadTemporaryMemmap filename st.mmap_mode st.unlink_on_gc_collect,
     { st with memmaped_arrays := basenameAndMap.2,
               temporary_memmaped_filenames := tmf },
     { existingDirs := dirs1, existingFiles := filesAndDump.1,
       tracker := tracker2, dumpLog := filesAndDump.2 })
  else
    (.inline a, st, env)

/-- `ArrayMemmapForwardReducer.__call__(a)`: reuse the backing memmap when
`a` is already backed by an `np.memmap`, otherwise apply the size
threshold / dedup / dump logic of `callPlainArray`. -/
def forwardCall (st : RState) (env : Env) (a : NDArray)
    (fresh_basename : String) : ForwardResult × RState × Env :=
  match get_backing_memmap a with
  | some m =>
      if m.info.isMemmap then
        (.descriptor (reduce_memmap_backed a m), st, env)
      else
        callPlainArray st env a fresh_basename
  | none => callPlainArray st env a fresh_basename

/-! ### Concrete sample values used to instantiate the theorems -/

/-- An 8-byte integer dtype without object elements. -/
def dtypeI8 : Dtype := { name := "i8", itemsize := 8, hasobject := false }

/-- Attribute template for the sample arrays below. -/
def baseInfo : ArrInfo :=
  { shape := [4], strides := [8], dtype := dtypeI8, cContig := true,
    fContig := false, byteStart := 100, byteEnd := 132, nbytes := 32,
    isMemmap := false, filename := "", mode := Mode.r, memOffset := 0,
    obj := ⟨1, 0⟩ }

/-- Sample backing memmap for claim C1: an `np.memmap` over the joblib
temporary file `fileC1`. -/
def mC1 : NDArray :=
  .mk { baseInfo with
        isMemmap := true
        filename := "fileC1"
        mode := Mode.rplus
        obj := ⟨11, 0⟩ }
    (some (Sum.inl ()))

/-- Sample array for claim C1: a view whose base is `mC1`. -/
def aC1 : NDArray :=
  .mk { baseInfo with
        byteStart := 108
        byteEnd := 124
        nbytes := 16
        obj := ⟨12, 0⟩ }
    (some (Sum.inr mC1))

/-- Sample backing memmap for claim C3, opened with mode `w+`. -/
def mC3 : NDArray :=
  .mk { baseInfo with
        isMemmap := true
        filename := "fileC3"
        mode := Mode.wplus
        obj := ⟨31, 0⟩ }
    (some (Sum.inl ()))

/-- Sample array for claim C3: a view whose base is `mC3`. -/
def aC3 : NDArray :=
  .mk { baseInfo with
        byteStart := 108
        byteEnd := 124
        nbytes := 16
        obj := ⟨32, 0⟩ }
    (some (Sum.inr mC3))

/-- Filesystem for claim C4: `/dev/shm` exists, is writable and reports
4096 * 1000000 bytes free, no environment override. -/
def fsC4 : FS :=
  { dirs := ["/dev/shm"], shmWritable := true, shmBsize := 4096,
    shmBavail := 1000000, envJoblibTempFolder := none, tempdir := "/tmp",
    cwd := "/work", home := "/home/u" }

/-- Filesystem for claim C5's counterexample: `/dev/shm` exists, is
writable and reports exactly 2e9 bytes free. -/
def fsC5 : FS :=
  { dirs := ["/dev/shm"], shmWritable := true, shmBsize := 2000000000,
    shmBavail := 1, envJoblibTempFolder := none, tempdir := "/tmp",
    cwd := "/work", home := "/home/u" }

/-- Filesystem for claim C5's witness: `/dev/shm` exists, is writable and
reports more than 2e9 bytes free. -/
def fsC5w : FS :=
  { dirs := ["/dev/shm"], shmWritable := true, shmBsize := 4096,
    shmBavail := 1000000, envJoblibTempFolder := none, tempdir := "/tmp",
    cwd := "/work", home := "/home/u" }

/-- Reducer state for claim C6: threshold 10 bytes. -/
def stC6 : RState :=
  { max_nbytes := some 10, mmap_mode := Mode.r,
    unlink_on_gc_collect := true, prewarm := PrewarmArg.bool false,
    memmaped_arrays := ⟨[]⟩, temporary_memmaped_filenames := [],
    temp_folder := "/tmp/poolC6" }

/-- Empty world for claim C6. -/
def envC6 : Env :=
  { existingDirs := [], existingFiles := [], tracker := [], dumpLog := [] }

/-- Sample array for claim C6: no base, 16 bytes, plain dtype. -/
def aC6 : NDArray :=
  .mk { baseInfo with
        nbytes := 16
        obj := ⟨61, 0⟩ } none

/-- Reducer state for claim C8: threshold 10 bytes. -/
def stC8 : RState :=
  { max_nbytes := some 10, mmap_mode := Mode.r,
    unlink_on_gc_collect := true, prewarm := PrewarmArg.bool false,
    memmaped_arrays := ⟨[]⟩, temporary_memmaped_filenames := [],
    temp_folder := "/tmp/poolC8" }

/-- Empty world for claim C8. -/
def envC8 : Env :=
  { existingDirs := [], existingFiles := [], tracker := [], dumpLog := [] }

/-- Sample array for claim C8: no base, 16 bytes, plain dtype. -/
def aC8 : NDArray :=
  .mk { baseInfo with
        nbytes := 16
        obj := ⟨81, 0⟩ } none

/-- Reducer state for claim C9 with `unlink_on_gc_collect = true`. -/
def stC9 : RState :=
  { max_nbytes := some 10, mmap_mode := Mode.r,
    unlink_on_gc_collect := true, prewarm := PrewarmArg.bool false,
    memmaped_arrays := ⟨[]⟩, temporary_memmaped_filenames := [],
    temp_folder := "/tmp/poolC9" }

/-- World for claim C9 with one prior tracker registration. -/
def envC9 : Env :=
  { existingDirs := ["/tmp/poolC9"], existingFiles := ["/tmp/poolC9/x.pkl"],
    tracker := ["/tmp/poolC9/x.pkl"], dumpLog := ["/tmp/poolC9/x.pkl"] }

/-- Sample backing memmap for claim C9. -/
def mC9 : NDArray :=
  .mk { baseInfo with
        isMemmap := true
        filename := "/tmp/poolC9/x.pkl"
        mode := Mode.r
        obj := ⟨91, 0⟩ }
    (some (Sum.inl ()))

/-- Sample array for claim C9: a view whose base is `mC9`. -/
def aC9 : NDArray :=
  .mk { baseInfo with
        byteStart := 108
        byteEnd := 124
        nbytes := 16
        obj := ⟨92, 0⟩ }
    (some (Sum.inr mC9))

/-- A weak-key map for claim C10 holding a stale entry: key 5 is occupied
by a weakref to the collected object `⟨5, 1⟩`. -/
def wmC10 : WeakArrayKeyMap String := ⟨[(5, ⟨5, 1⟩, "old")]⟩

/-! ### Helper lemmas -/

theorem lookupAssoc_insertAssoc_self {α : Type} (l : List (Nat × Obj × α))
    (k : Nat) (ov : Obj × α) :
    lookupAssoc (insertAssoc l k ov) k = some ov := by
  induction l with
  | nil => simp [insertAssoc, lookupAssoc]
  | cons hd tl ih =>
    obtain ⟨k0, ov0⟩ := hd
    by_cases hk : k0 = k
    · simp [insertAssoc, lookupAssoc, hk]
    · simp [insertAssoc, lookupAssoc, hk, ih]

theorem WeakArrayKeyMap.get_set_self {α : Type} (m : WeakArrayKeyMap α)
    (obj : Obj) (v : α) : (m.set obj v).get obj = some v := by
  unfold WeakArrayKeyMap.get WeakArrayKeyMap.set
  cases h : lookupAssoc m.data obj.pyid with
  | none => simp [h, lookupAssoc_insertAssoc_self]
  | some rv =>
    obtain ⟨ref0, v0⟩ := rv
    by_cases hr : ref0 = obj
    · simp [h, hr, lookupAssoc_insertAssoc_self]
    · simp [h, hr, lookupAssoc_insertAssoc_self]

theorem memmapThresholdCond_iff (st : RState) (a : NDArray) :
    memmapThresholdCond st a = true ↔
      (a.info.dtype.hasobject = false ∧
       ∃ t, st.max_nbytes = some t ∧ t < a.info.nbytes) := by
  unfold memmapThresholdCond
  cases h : st.max_nbytes with
  | none => simp
  | some t => simp [Nat.lt_iff_add_one_le]

theorem callPlainArray_fst_isMemmapDump (st : RState) (env : Env)
    (a : NDArray) (f : String) :
    (callPlainArray st env a f).1.isMemmapDump = memmapThresholdCond st a := by
  unfold callPlainArray
  by_cases h : memmapThresholdCond st a = true
  · simp [h, ForwardResult.isMemmapDump]
  · simp at h
    simp [h, ForwardResult.isMemmapDump]

theorem forwardCall_eq_callPlain (st : RState) (env : Env) (a : NDArray)
    (f : String)
    (hm : ∀ m, get_backing_memmap a = some m → m.info.isMemmap = false) :
    forwardCall st env a f = callPlainArray st env a f := by
  cases hmm : get_backing_memmap a with
  | none => simp [forwardCall, hmm]
  | some m => simp [forwardCall, hmm, hm m hmm]

theorem memmapThresholdCond_congr (st st' : RState) (a : NDArray)
    (h : st'.max_nbytes = st.max_nbytes) :
    memmapThresholdCond st' a = memmapThresholdCond st a := by
  unfold memmapThresholdCond
  rw [h]

theorem callPlainArray_memmap_case (st : RState) (env : Env) (a : NDArray)
    (f : String) (hc : memmapThresholdCond st a = true) :
    ∃ b,
      (callPlainArray st env a f).1 =
        ForwardResult.loadTemporaryMemmap (pathJoin st.temp_folder b)
          st.mmap_mode st.unlink_on_gc_collect ∧
      ((callPlainArray st env a f).2.1).memmaped_arrays.get a.info.obj =
        some b ∧
      ((callPlainArray st env a f).2.2).existingFiles.contains
        (pathJoin st.temp_folder b) = true ∧
      ((callPlainArray st env a f).2.1).temp_folder = st.temp_folder ∧
      ((callPlainArray st env a f).2.1).max_nbytes = st.max_nbytes ∧
      ((callPlainArray st env a f).2.1).mmap_mode = st.mmap_mode ∧
      ((callPlainArray st env a f).2.1).unlink_on_gc_collect =
        st.unlink_on_gc_collect := by
  cases hget : st.memmaped_arrays.get a.info.obj with
  | some b =>
    refine ⟨b, ?_, ?_, ?_, ?_, ?_, ?_, ?_⟩ <;>
      simp [callPlainArray, hc, hget]
    split <;> simp_all
  | none =>
    refine ⟨f, ?_, ?_, ?_, ?_, ?_, ?_, ?_⟩ <;>
      simp [callPlainArray, hc, hget, WeakArrayKeyMap.get_set_self]
    split <;> simp_all

theorem callPlainArray_no_dump (st : RState) (env : Env) (a : NDArray)
    (f b : String) (hc : memmapThresholdCond st a = true)
    (hget : st.memmaped_arrays.get a.info.obj = some b)
    (hfile : env.existingFiles.contains (pathJoin st.temp_folder b) = true) :
    (callPlainArray st env a f).1 =
      ForwardResult.loadTemporaryMemmap (pathJoin st.temp_folder b)
        st.mmap_mode st.unlink_on_gc_collect ∧
    ((callPlainArray st env a f).2.2).dumpLog = env.dumpLog := by
  have hf : pathJoin st.temp_folder b ∈ env.existingFiles := by
    simpa using hfile
  constructor <;> simp [callPlainArray, hc, hget, hf]

/-! ### Claims -/

/-- Claim C2 (code bug): the spec requires that with `prewarm == "auto"`
the `_prewarm` attribute become the boolean "temp folder is not on shared
memory", but the source's conditional assignment is immediately overwritten
by the unconditional `self._prewarm = prewarm`, so on a shared-memory temp
folder the attribute ends up holding the truthy string `"auto"` (prewarm
runs) instead of `False` (prewarm disabled). -/
theorem prewarm_auto_overwritten_bug :
    initPrewarmField "/dev/shm/joblib_t" PrewarmArg.auto = PrewarmArg.auto ∧
    (initPrewarmField "/dev/shm/joblib_t" PrewarmArg.auto).truthy = true ∧
    initPrewarmConditional "/dev/shm/joblib_t" PrewarmArg.auto =
      PrewarmArg.bool false ∧
    (initPrewarmConditional "/dev/shm/joblib_t" PrewarmArg.auto).truthy =
      false := by
  refine ⟨rfl, rfl, ?_, ?_⟩ <;> decide

/-- Claim C3, counterexample: the encoder does emit mode `w+` on the wire.
Reducing (through the backward reducer) a view over a memmap that was
opened with mode `w+` produces a descriptor whose mode field is `w+`,
because `_reduce_memmap_backed` passes `m.mode` through verbatim. -/
theorem encoder_emits_wplus_cex :
    mC3.info.mode = Mode.wplus ∧
    ∃ d, reduce_array_memmap_backward [] aC3 = BackwardResult.descriptor d ∧
         d.mode = Mode.wplus :=
  ⟨rfl, reduce_memmap_backed aC3 mC3, rfl, rfl⟩

/-- Claim C3 (amended): the encoder copies the backing memmap's mode into
the descriptor unchanged (so `w+` can appear on the wire exactly when the
backing memmap was opened with `w+`), and the decoder canonicalizes a
received `w+` to `r+` before opening the memory map, so the mode actually
used to open a map is never `w+`. -/
theorem mode_passthrough_decode_canonicalizes :
    (∀ a m : NDArray, (reduce_memmap_backed a m).mode = m.info.mode) ∧
    (∀ (fn : String) (dt : Dtype) (mode : Mode) (off : Int) (ord : ArrOrder)
       (sh : List Nat) (str : Option (List Int)) (tot : Option Nat)
       (u : Bool),
       (strided_from_memmap fn dt mode off ord sh str tot u).mmapMode =
         if mode = Mode.wplus then Mode.rplus else mode) := by
  constructor
  · intro a m; rfl
  · intro fn dt mode off ord sh str tot u
    cases str <;> rfl

/-- Claim C7 (confirmed): for a memmap-backed view `a` over backing memmap
`m`, the encoder computes `offset` as the byte-bounds difference plus
`m.offset`, sets `order` to `F` iff `m` is Fortran contiguous, and emits
`strides` plus `total_buffer_len = (a_end - a_start) / itemsize` exactly
when `a` is neither C- nor F-contiguous, omitting both otherwise. -/
theorem encoder_field_computation (a m : NDArray) :
    (reduce_memmap_backed a m).offset =
      (a.info.byteStart : Int) - (m.info.byteStart : Int) +
        (m.info.memOffset : Int) ∧
    (reduce_memmap_backed a m).order =
      (if m.info.fContig then ArrOrder.F else ArrOrder.C) ∧
    (if a.info.cContig = false ∧ a.info.fContig = false then
       (reduce_memmap_backed a m).strides = some a.info.strides ∧
       (reduce_memmap_backed a m).total_buffer_len =
         some ((a.info.byteEnd - a.info.byteStart) / a.info.dtype.itemsize)
     else
       (reduce_memmap_backed a m).strides = none ∧
       (reduce_memmap_backed a m).total_buffer_len = none) := by
  refine ⟨rfl, rfl, ?_⟩
  by_cases hc : a.info.cContig <;> by_cases hf : a.info.fContig <;>
    simp [reduce_memmap_backed, hc, hf]

/-- Claim C9 (confirmed): when the forward reducer receives an array that
is already backed by an `np.memmap`, it returns the descriptor-reuse
reduction with `unlink_on_gc_collect = false` in the descriptor and leaves
the reducer state and the outside world — resource-tracker registrations
included — completely unchanged, whatever the reducer's own
`unlink_on_gc_collect` flag is. -/
theorem memmap_backed_reuse_no_tracker_effect (st : RState) (env : Env)
    (a m : NDArray) (fresh : String)
    (h1 : get_backing_memmap a = some m) (h2 : m.info.isMemmap = true) :
    forwardCall st env a fresh =
      (ForwardResult.descriptor (reduce_memmap_backed a m), st, env) ∧
    (reduce_memmap_backed a m).unlink_on_gc_collect = false := by
  constructor
  · simp [forwardCall, h1, h2]
  · rfl

/-- Claim C9, witness: a concrete memmap-backed array reduced by a reducer
whose `unlink_on_gc_collect` flag is true: the tracker registrations are
untouched and the emitted descriptor carries `unlink_on_gc_collect =
false`. -/
theorem memmap_backed_reuse_no_tracker_effect_witness :
    stC9.unlink_on_gc_collect = true ∧
    (forwardCall stC9 envC9 aC9 "b" =
      (ForwardResult.descriptor (reduce_memmap_backed aC9 mC9), stC9, envC9) ∧
     (reduce_memmap_backed aC9 mC9).unlink_on_gc_collect = false) :=
  ⟨rfl, memmap_backed_reuse_no_tracker_effect stC9 envC9 aC9 mC9 "b" rfl rfl⟩

/-- Claim C10 (confirmed): `_WeakArrayKeyMap.set(obj, value)` followed by
`get(obj)` returns `value`, even when the identity key was previously
occupied by a stale entry for a different object (the internal id-reuse
`KeyError` in `set` is caught and the entry replaced), while `get` on an
absent key or on a stale entry raises `KeyError` (modelled as `none`). -/
theorem weakmap_set_get_spec (α : Type) :
    (∀ (m : WeakArrayKeyMap α) (obj : Obj) (v : α),
       (m.set obj v).get obj = some v) ∧
    (∀ (m : WeakArrayKeyMap α) (obj : Obj),
       lookupAssoc m.data obj.pyid = none → m.get obj = none) ∧
    (∀ (m : WeakArrayKeyMap α) (obj ref : Obj) (v : α),
       lookupAssoc m.data obj.pyid = some (ref, v) → ref ≠ obj →
       m.get obj = none) := by
  refine ⟨fun m obj v => WeakArrayKeyMap.get_set_self m obj v, ?_, ?_⟩
  · intro m obj h
    simp [WeakArrayKeyMap.get, h]
  · intro m obj ref v h hne
    simp [WeakArrayKeyMap.get, h, hne]

/-- Claim C10, witness: a map whose key 5 holds a stale entry for the
collected object `⟨5, 1⟩`.  `get` on the new object `⟨5, 2⟩` (same reused
id, different object) fails, `get` on an absent key fails, and `set`
followed by `get` on the new object returns the new value. -/
theorem weakmap_set_get_spec_witness :
    ((wmC10.set ⟨5, 2⟩ "new").get ⟨5, 2⟩ = some "new") ∧
    ((⟨[]⟩ : WeakArrayKeyMap String).get ⟨3, 0⟩ = none) ∧
    (wmC10.get ⟨5, 2⟩ = none) :=
  ⟨(weakmap_set_get_spec String).1 wmC10 ⟨5, 2⟩ "new",
   (weakmap_set_get_spec String).2.1 ⟨[]⟩ ⟨3, 0⟩ rfl,
   (weakmap_set_get_spec String).2.2 wmC10 ⟨5, 2⟩ ⟨5, 1⟩ "old" rfl
     (by decide)⟩

/-- Claim C1, counterexample: an array backed by an `np.memmap` whose
filename IS in the worker's `JOBLIB_MMAPS` set is serialized inline, not
reduced via the descriptor codec — the source's descriptor path requires
`m.filename not in JOBLIB_MMAPS`, the opposite of the claim. -/
theorem backward_joblib_owned_inlined_cex :
    get_backing_memmap aC1 = some mC1 ∧
    mC1.info.isMemmap = true ∧
    List.contains ["fileC1"] mC1.info.filename = true ∧
    (reduce_array_memmap_backward ["fileC1"] aC1).isDescriptor = false :=
  ⟨rfl, rfl, rfl, rfl⟩

/-- Claim C1 (amended): the backward reducer emits a descriptor iff `a`
is backed by an `np.memmap` whose filename is NOT in the worker's
`JOBLIB_MMAPS` set; an array backed by a joblib-owned memmap — like a
plain array — is serialized inline (so the worker-side finalizers can
decrement the refcounts of temporary files). -/
theorem backward_descriptor_iff_not_joblib_owned (mmaps : List String)
    (a : NDArray) :
    ((reduce_array_memmap_backward mmaps a).isDescriptor = true ↔
      ∃ m, get_backing_memmap a = some m ∧ m.info.isMemmap = true ∧
           mmaps.contains m.info.filename = false) ∧
    (∀ m, get_backing_memmap a = some m → m.info.isMemmap = true →
       mmaps.contains m.info.filename = true →
       reduce_array_memmap_backward mmaps a = BackwardResult.inline a) := by
  constructor
  · cases hm : get_backing_memmap a with
    | none =>
        simp [reduce_array_memmap_backward, hm, BackwardResult.isDescriptor]
    | some m =>
        simp only [reduce_array_memmap_backward, hm]
        by_cases h1 : m.info.isMemmap <;>
          by_cases h2 : m.info.filename ∈ mmaps <;>
            simp [h1, h2, BackwardResult.isDescriptor]
  · intro m hm h1 h2
    have h2m : m.info.filename ∈ mmaps := by simpa using h2
    simp [reduce_array_memmap_backward, hm, h1, h2m]

/-- Claim C1, witness: the amended characterization applied to the
concrete joblib-owned memmap view `aC1`: its reduction with
`JOBLIB_MMAPS = [fileC1]` is the inline path. -/
theorem backward_descriptor_iff_not_joblib_owned_witness :
    ((reduce_array_memmap_backward ["fileC1"] aC1).isDescriptor = true ↔
      ∃ m, get_backing_memmap aC1 = some m ∧ m.info.isMemmap = true ∧
           List.contains ["fileC1"] m.info.filename = false) ∧
    reduce_array_memmap_backward ["fileC1"] aC1 = BackwardResult.inline aC1 :=
  ⟨(backward_descriptor_iff_not_joblib_owned ["fileC1"] aC1).1,
   (backward_descriptor_iff_not_joblib_owned ["fileC1"] aC1).2 mC1 rfl rfl
     rfl⟩

/-- Claim C4, counterexample: resolving with no explicit root on a
filesystem where `/dev/shm` is present, writable, and large enough DOES
create the pool folder (the source calls `os.makedirs` inside the
shared-memory branch as a write probe), so the resolver is not free of
filesystem writes. -/
theorem resolver_creates_shm_pool_folder_cex :
    fsC4.dirs.contains (pathJoin SYSTEM_SHARED_MEM_FS "pool") = false ∧
    ((get_temp_dir fsC4 "pool" none).2).dirs.contains
      (pathJoin SYSTEM_SHARED_MEM_FS "pool") = true :=
  ⟨rfl, rfl⟩

/-- Claim C4 (amended): the resolver returns the joined, absolute,
`~`-expanded path, and performs no filesystem write except in the
shared-memory branch, where it creates the `/dev/shm` pool folder as a
write probe; outside that branch folder creation is deferred to the first
write by the forward reducer. -/
theorem resolver_path_and_creation (fs : FS) (name : String)
    (root : Option String) :
    ((get_temp_dir fs name root).2 = fs ∨
      ((get_temp_dir fs name root).1.2 = true ∧
       (get_temp_dir fs name root).2 =
         { fs with dirs := pathJoin SYSTEM_SHARED_MEM_FS name :: fs.dirs })) ∧
    (∃ r, (get_temp_dir fs name root).1.1 =
        pathJoin (abspath fs.cwd (expanduser fs.home r)) name) := by
  rcases root with _ | t
  · rcases henv : fs.envJoblibTempFolder with _ | e
    · by_cases h1 : SYSTEM_SHARED_MEM_FS ∈ fs.dirs
      · by_cases h2 :
            fs.shmBsize * fs.shmBavail > SYSTEM_SHARED_MEM_FS_MIN_SIZE
        · by_cases h3 : pathJoin SYSTEM_SHARED_MEM_FS name ∈ fs.dirs
          · exact ⟨Or.inl (by simp [get_temp_dir, henv, h1, h2, h3]),
              SYSTEM_SHARED_MEM_FS,
              by simp [get_temp_dir, henv, h1, h2, h3]⟩
          · by_cases h4 : fs.shmWritable = true
            · refine ⟨Or.inr ⟨?_, ?_⟩, SYSTEM_SHARED_MEM_FS, ?_⟩ <;>
                simp [get_temp_dir, henv, h1, h2, h3, h4]
            · exact ⟨Or.inl (by simp [get_temp_dir, henv, h1, h2, h3, h4]),
                fs.tempdir,
                by simp [get_temp_dir, henv, h1, h2, h3, h4]⟩
        · exact ⟨Or.inl (by simp [get_temp_dir, henv, h1, h2]),
            fs.tempdir, by simp [get_temp_dir, henv, h1, h2]⟩
      · exact ⟨Or.inl (by simp [get_temp_dir, henv, h1]),
          fs.tempdir, by simp [get_temp_dir, henv, h1]⟩
    · exact ⟨Or.inl (by simp [get_temp_dir, henv]),
        e, by simp [get_temp_dir, henv]⟩
  · exact ⟨Or.inl (by simp [get_temp_dir]), t, by simp [get_temp_dir]⟩

/-- Claim C5, counterexample: with `/dev/shm` existing, writable and
reporting exactly 2e9 bytes free ("at least 2 GB"), the resolver does NOT
select the shared-memory mount — the source requires strictly more than
2e9 bytes — and falls back to the platform temp directory. -/
theorem shm_exactly_2gb_falls_back_cex :
    fsC5.dirs.contains SYSTEM_SHARED_MEM_FS = true ∧
    fsC5.shmWritable = true ∧
    fsC5.shmBsize * fsC5.shmBavail = SYSTEM_SHARED_MEM_FS_MIN_SIZE ∧
    (get_temp_dir fsC5 "pool" none).1.2 = false ∧
    (get_temp_dir fsC5 "pool" none).1.1 = "/tmp/pool" :=
  ⟨rfl, rfl, rfl, rfl, rfl⟩

/-- Claim C5 (amended): with no explicit root, no environment override and
a pool folder that does not pre-exist, the shared-memory mount is selected
iff it exists, is writable (probed by the pool-folder creation) and
reports strictly more than 2e9 bytes free; otherwise the resolver falls
back to the platform temp directory. -/
theorem shm_selected_iff_strict (fs : FS) (name : String)
    (henv : fs.envJoblibTempFolder = none)
    (hpool : pathJoin SYSTEM_SHARED_MEM_FS name ∉ fs.dirs) :
    ((get_temp_dir fs name none).1.2 = true ↔
      (SYSTEM_SHARED_MEM_FS ∈ fs.dirs ∧ fs.shmWritable = true ∧
       fs.shmBsize * fs.shmBavail > SYSTEM_SHARED_MEM_FS_MIN_SIZE)) ∧
    ((get_temp_dir fs name none).1.2 = false →
      (get_temp_dir fs name none).1.1 =
        pathJoin (abspath fs.cwd (expanduser fs.home fs.tempdir)) name) := by
  by_cases h1 : SYSTEM_SHARED_MEM_FS ∈ fs.dirs
  · by_cases h2 : fs.shmBsize * fs.shmBavail > SYSTEM_SHARED_MEM_FS_MIN_SIZE
    · by_cases h4 : fs.shmWritable = true
      · constructor
        · simp [get_temp_dir, henv, h1, h2, hpool, h4]
        · intro hfalse
          exact absurd hfalse
            (by simp [get_temp_dir, henv, h1, h2, hpool, h4])
      · constructor
        · simp [get_temp_dir, henv, h1, h2, hpool, h4]
        · intro _
          simp [get_temp_dir, henv, h1, h2, hpool, h4]
    · constructor
      · simp [get_temp_dir, henv, h1, h2]
      · intro _
        simp [get_temp_dir, henv, h1, h2]
  · constructor
    · simp [get_temp_dir, henv, h1]
    · intro _
      simp [get_temp_dir, henv, h1]

/-- Claim C5, witness: on a filesystem whose `/dev/shm` is writable and
reports 4096 * 1000000 bytes free, the characterization applies: the
shared-memory mount is selected. -/
theorem shm_selected_iff_strict_witness :
    (((get_temp_dir fsC5w "pool" none).1.2 = true ↔
       (SYSTEM_SHARED_MEM_FS ∈ fsC5w.dirs ∧
        fsC5w.shmWritable = true ∧
        fsC5w.shmBsize * fsC5w.shmBavail > SYSTEM_SHARED_MEM_FS_MIN_SIZE)) ∧
     ((get_temp_dir fsC5w "pool" none).1.2 = false →
       (get_temp_dir fsC5w "pool" none).1.1 =
         pathJoin (abspath fsC5w.cwd (expanduser fsC5w.home fsC5w.tempdir))
           "pool")) :=
  shm_selected_iff_strict fsC5w "pool" rfl (by decide)

/-- Claim C6 (confirmed): for an array that is not already (usably)
memmap backed, the forward reducer takes the memmap-dump path iff the
dtype has no object elements, `max_nbytes` is not `None`, and `nbytes`
is strictly greater than `max_nbytes`; in particular `max_nbytes = None`
never memmaps and `nbytes = max_nbytes` exactly is not memmapped. -/
theorem forward_memmap_iff_threshold (st : RState) (env : Env) (a : NDArray)
    (fresh : String)
    (h : ∀ m, get_backing_memmap a = some m → m.info.isMemmap = false) :
    ((forwardCall st env a fresh).1.isMemmapDump = true ↔
      (a.info.dtype.hasobject = false ∧
       ∃ t, st.max_nbytes = some t ∧ t < a.info.nbytes)) := by
  rw [forwardCall_eq_callPlain st env a fresh h,
    callPlainArray_fst_isMemmapDump, memmapThresholdCond_iff]

/-- Claim C6, witness: a fresh 16-byte plain array against a threshold of
10 bytes: the characterization applies and both sides hold. -/
theorem forward_memmap_iff_threshold_witness :
    ((forwardCall stC6 envC6 aC6 "b").1.isMemmapDump = true ↔
      (aC6.info.dtype.hasobject = false ∧
       ∃ t, stC6.max_nbytes = some t ∧ t < aC6.info.nbytes)) :=
  forward_memmap_iff_threshold stC6 envC6 aC6 "b"
    (fun m hm => by simp [aC6, get_backing_memmap] at hm)

/-- Claim C8 (confirmed): two forward reductions of the same live array
object through one reducer instance use the same backing filename (hence
the same basename, the temp folder being fixed), and the second reduction
serializes nothing: its dump log is exactly the first reduction's. -/
theorem forward_dedup_same_basename_single_dump (st : RState) (env : Env)
    (a : NDArray) (f1 f2 : String)
    (hm : ∀ m, get_backing_memmap a = some m → m.info.isMemmap = false)
    (hc : memmapThresholdCond st a = true) :
    ∃ fn,
      (forwardCall st env a f1).1 =
        ForwardResult.loadTemporaryMemmap fn st.mmap_mode
          st.unlink_on_gc_collect ∧
      (forwardCall (forwardCall st env a f1).2.1
          (forwardCall st env a f1).2.2 a f2).1 =
        ForwardResult.loadTemporaryMemmap fn st.mmap_mode
          st.unlink_on_gc_collect ∧
      (forwardCall (forwardCall st env a f1).2.1
          (forwardCall st env a f1).2.2 a f2).2.2.dumpLog =
        (forwardCall st env a f1).2.2.dumpLog := by
  have e1 : forwardCall st env a f1 = callPlainArray st env a f1 :=
    forwardCall_eq_callPlain st env a f1 hm
  obtain ⟨b, r1, g1, files1, tf1, mn1, mm1, ug1⟩ :=
    callPlainArray_memmap_case st env a f1 hc
  have hc1 :
      memmapThresholdCond ((callPlainArray st env a f1).2.1) a = true := by
    rw [memmapThresholdCond_congr st ((callPlainArray st env a f1).2.1) a
      mn1]
    exact hc
  have e2 :
      forwardCall ((callPlainArray st env a f1).2.1)
        ((callPlainArray st env a f1).2.2) a f2 =
      callPlainArray ((callPlainArray st env a f1).2.1)
        ((callPlainArray st env a f1).2.2) a f2 :=
    forwardCall_eq_callPlain _ _ a f2 hm
  have hfile1 :
      ((callPlainArray st env a f1).2.2).existingFiles.contains
        (pathJoin ((callPlainArray st env a f1).2.1).temp_folder b) =
        true := by
    rw [tf1]
    exact files1
  obtain ⟨r2, d2⟩ :=
    callPlainArray_no_dump ((callPlainArray st env a f1).2.1)
      ((callPlainArray st env a f1).2.2) a f2 b hc1 g1 hfile1
  refine ⟨pathJoin st.temp_folder b, ?_, ?_, ?_⟩
  · rw [e1]
    exact r1
  · rw [e1, e2, r2, tf1, mm1, ug1]
  · rw [e1, e2, d2]

/-- Claim C8, witness: the same 16-byte array sent twice through one
reducer with threshold 10: both sends name the same file and the second
send leaves the dump log unchanged. -/
theorem forward_dedup_same_basename_single_dump_witness :
    ∃ fn,
      (forwardCall stC8 envC8 aC8 "b1").1 =
        ForwardResult.loadTemporaryMemmap fn stC8.mmap_mode
          stC8.unlink_on_gc_collect ∧
      (forwardCall (forwardCall stC8 envC8 aC8 "b1").2.1
          (forwardCall stC8 envC8 aC8 "b1").2.2 aC8 "b2").1 =
        ForwardResult.loadTemporaryMemmap fn stC8.mmap_mode
          stC8.unlink_on_gc_collect ∧
      (forwardCall (forwardCall stC8 envC8 aC8 "b1").2.1
          (forwardCall stC8 envC8 aC8 "b1").2.2 aC8 "b2").2.2.dumpLog =
        (forwardCall stC8 envC8 aC8 "b1").2.2.dumpLog :=
  forward_dedup_same_basename_single_dump stC8 envC8 aC8 "b1" "b2"
    (fun m hm => by simp [aC8, get_backing_memmap] at hm) (by decide)

end Joblib
